/-
  Verification of the debriefings data-access layer
  (src/hooks/useDebriefings.tsx and src/components/DebriefingCommentsSheet.tsx).

  The hook operations are embedded as pure Lean functions.  All backing-store
  responses (Supabase queries, inserts, deletes, storage uploads) are supplied
  by an oracle structure `Env`: each field models one kind of request and
  returns `Except Unit _` (`.error` = the call failed, `.ok` = the call
  resolved).  The hook's React state (`debriefings`, `loading`) is passed and
  returned explicitly.  Toast notifications are recorded as booleans in the
  outcome records.
-/
import Mathlib

namespace Debriefings

/-- The enriched content item held in the in-memory list
(`Debriefing` interface in useDebriefings.tsx).  `channel_id` is an
`Option` because a public brief is inserted with `channel_id: null`;
`created_at` is the timestamp string the store returns;
`likes`/`views`/`comments` are JS numbers, modelled as `Int`. -/
structure Debriefing where
  id : String
  title : String
  description : String
  video_url : Option String
  creator_id : String
  creator_username : String
  likes : Int
  views : Int
  comments : Int
  isLiked : Bool
  created_at : String
  channel_id : Option String
  thumbnail_url : Option String
  post_link : Option String
  is_public : Bool
deriving DecidableEq

/-- A raw row of the `debriefings` table as returned by
`select('*')`, before the client attaches `creator_username` and
`isLiked`. -/
structure DebriefingRow where
  id : String
  title : String
  description : String
  video_url : Option String
  creator_id : String
  likes : Int
  views : Int
  comments : Int
  created_at : String
  channel_id : Option String
  thumbnail_url : Option String
  post_link : Option String
  is_public : Bool
deriving DecidableEq

/-- The payload of the `insert` into the `debriefings` table
(`debriefingInsert` object in `createDebriefing`). -/
structure DebriefingInsert where
  title : String
  description : String
  video_url : Option String
  thumbnail_url : Option String
  post_link : Option String
  creator_id : String
  channel_id : Option String
  is_public : Bool
  likes : Int
  views : Int
deriving DecidableEq

/-- A reply comment (one level of nesting only: replies carry no
further `replies` field in the returned shape). -/
structure Reply where
  id : String
  debriefing_id : String
  user_id : String
  username : String
  content : String
  parent_comment_id : Option String
  likes : Int
  isLiked : Bool
  created_at : String
deriving DecidableEq

/-- A top-level comment with its nested replies; `replies` is an
`Option` mirroring the optional `replies?` access in
`DebriefingCommentsSheet.tsx` (`comment.replies?.length || 0`). -/
structure Comment where
  id : String
  debriefing_id : String
  user_id : String
  username : String
  content : String
  likes : Int
  isLiked : Bool
  created_at : String
  replies : Option (List Reply)
deriving DecidableEq

/-- Oracle for every backing-store request the hook issues.  Each field
returns `.error ()` when the underlying call fails and `.ok _` when it
resolves.  A filtered delete that matches zero rows still resolves
`.ok ()` (Supabase reports no error in that case). -/
structure Env where
  /-- `from('debriefings').select('*').eq('channel_id', cid).order(...)`:
  the rows for a channel, in the order the store returns them. -/
  queryChannel : String → Except Unit (List DebriefingRow)
  /-- `from('debriefings').select('*').eq('is_public', true).order(...)`. -/
  queryPublic : Except Unit (List DebriefingRow)
  /-- `from('profiles').select('username').eq('user_id', uid).single()`:
  `.ok (some u)` = row found with username `u`, `.ok none` = no row
  (data null), `.error ()` = request failed. -/
  profileUsername : String → Except Unit (Option String)
  /-- `from('debriefing_likes').select('id').eq('debriefing_id', did)
  .eq('user_id', uid).maybeSingle()`: the like row's id, if any.
  The user argument is `Option` because the fetch paths pass `user?.id`. -/
  likeRow : String → Option String → Except Unit (Option String)
  /-- `storage.from('debriefing-videos').upload(path, file)`. -/
  uploadFile : String → Except Unit Unit
  /-- `storage.from('debriefing-videos').getPublicUrl(path)` (never fails). -/
  publicUrl : String → String
  /-- `from('debriefings').insert(payload).select().single()`: the created row. -/
  insertRow : DebriefingInsert → Except Unit DebriefingRow
  /-- `from('debriefing_likes').insert({debriefing_id, user_id})`. -/
  insertLike : String → String → Except Unit Unit
  /-- `from('debriefing_likes').delete().eq('debriefing_id', did).eq('user_id', uid)`. -/
  deleteLike : String → String → Except Unit Unit
  /-- `from('debriefings').delete().eq('id', did).eq('creator_id', uid)`:
  resolves `.ok ()` even when the ownership filter matched zero rows. -/
  deleteRows : String → String → Except Unit Unit
  /-- `from('comments').insert(...)` for the comment hook: the created comment. -/
  insertComment : String → String → Option String → Except Unit Comment
  /-- Toggle row calls of the comment hook (`comment_likes` insert/delete,
  `comments` delete), collapsed into one oracle per call kind. -/
  insertCommentLike : String → String → Except Unit Unit
  deleteCommentLike : String → String → Except Unit Unit
  deleteCommentRows : String → String → Except Unit Unit

/-- `const { data } = await ...`: the destructuring the enrichment lookups
use keeps only `data` and drops the error channel, so a failed request and
a missing row are indistinguishable (both give `null`). -/
def dataOf {α : Type} (r : Except Unit (Option α)) : Option α :=
  match r with
  | .ok d => d
  | .error _ => none

/-- The per-row enrichment performed inside `Promise.all` in
`fetchDebriefings`/`fetchPublicDebriefings`: resolve the creator's
username (falling back to "Utilisateur") and whether the viewer has a
like row (`isLiked: !!likeData`). -/
def enrichRow (user : Option String) (env : Env) (row : DebriefingRow) : Debriefing :=
  let profileData := dataOf (env.profileUsername row.creator_id)
  let likeData := dataOf (env.likeRow row.id user)
  { id := row.id
    title := row.title
    description := row.description
    video_url := row.video_url
    creator_id := row.creator_id
    creator_username := profileData.getD "Utilisateur"
    likes := row.likes
    views := row.views
    comments := row.comments
    isLiked := likeData.isSome
    created_at := row.created_at
    channel_id := row.channel_id
    thumbnail_url := row.thumbnail_url
    post_link := row.post_link
    is_public := row.is_public }

/-- The hook's React state: the in-memory list and the loading flag. -/
structure HookState where
  debriefings : List Debriefing
  loading : Bool
deriving DecidableEq

/-- Outcome of a fetch operation: the state after the call, whether a
`toast.error` was shown, and whether any store request was issued. -/
structure FetchOutcome where
  state : HookState
  toastError : Bool
  storeCalled : Bool
deriving DecidableEq

/-- `fetchDebriefings` (useDebriefings.tsx, lines 30-81).  `channelId`
is the hook's channel argument (`null` ⇒ `none`); the sentinel
"no channel selected" value is the string "general".  On the sentinel
branch the list is reset to `[]` with no request; on a query error the
list is left as it was, an error toast is shown; `loading` ends `false`
on every path (the `finally` block). -/
def fetchDebriefings (channelId : Option String) (user : Option String) (env : Env)
    (s : HookState) : FetchOutcome :=
  match channelId with
  | none => ⟨⟨[], false⟩, false, false⟩
  | some cid =>
    if cid = "general" then ⟨⟨[], false⟩, false, false⟩
    else
      match env.queryChannel cid with
      | .error _ => ⟨⟨s.debriefings, false⟩, true, true⟩
      | .ok rows => ⟨⟨rows.map (enrichRow user env), false⟩, false, true⟩

/-- `fetchPublicDebriefings` (useDebriefings.tsx, lines 83-127): same
enrichment, filtering by `is_public` with no channel check. -/
def fetchPublicDebriefings (user : Option String) (env : Env) (s : HookState) : FetchOutcome :=
  match env.queryPublic with
  | .error _ => ⟨⟨s.debriefings, false⟩, true, true⟩
  | .ok rows => ⟨⟨rows.map (enrichRow user env), false⟩, false, true⟩

/-- Outcome of a mutation (`createDebriefing`/`likeDebriefing`/
`deleteDebriefing`): the list after the call, the returned boolean,
whether any store request (query/insert/delete/upload) was issued, and
which toasts were shown. -/
structure MutationOutcome where
  debriefings : List Debriefing
  result : Bool
  storeCalled : Bool
  toastError : Bool
  toastSuccess : Bool
deriving DecidableEq

/-- The `DebriefingData` argument of `createDebriefing` (with the
optional extensions used by the hook).  `video`/`thumbnail` are file
names of the attached payloads, when present. -/
structure DebriefingInput where
  title : String
  description : String
  video : Option String
  thumbnail : Option String
  postLink : Option String
  isPublic : Option Bool
deriving DecidableEq

/-- JS `x || null` on an optional string field: empty string collapses to null. -/
def orNull (o : Option String) : Option String :=
  match o with
  | none => none
  | some s => if s = "" then none else some s

/-- One media-upload block of `createDebriefing`: when a payload is
attached, upload it and resolve its public URL; the resulting URL
variable stays `""` when no payload is present.  `.error` = the upload
failed (the code `throw`s). -/
def uploadMedia (env : Env) (path : Option String) : Except Unit String :=
  match path with
  | none => .ok ""
  | some p =>
    match env.uploadFile p with
    | .error e => .error e
    | .ok _ => .ok (env.publicUrl p)

/-- The `debriefingInsert` object (useDebriefings.tsx, lines 183-194):
the row inserted into the `debriefings` table, with like/view counts
initialized to zero, owning channel null when public else the hook's
channel, and `x || null` collapsing empty URL strings to null. -/
def buildInsertPayload (uid : String) (channelId : Option String) (isPublicBrief : Bool)
    (dd : DebriefingInput) (videoUrl thumbnailUrl : String) : DebriefingInsert where
  title := dd.title
  description := dd.description
  video_url := if videoUrl = "" then none else some videoUrl
  thumbnail_url := if thumbnailUrl = "" then none else some thumbnailUrl
  post_link := orNull dd.postLink
  creator_id := uid
  channel_id := if isPublicBrief then none else channelId
  is_public := isPublicBrief
  likes := 0
  views := 0

/-- The fully-formed item prepended to the list on a successful create:
the inserted row spread into a `Debriefing`, with the creator's username
resolved from the viewer's own profile (falling back to "Vous") and
`isLiked: false`. -/
def mkNewDebriefing (env : Env) (uid : String) (row : DebriefingRow) : Debriefing :=
  let profileData := dataOf (env.profileUsername uid)
  { id := row.id
    title := row.title
    description := row.description
    video_url := row.video_url
    creator_id := row.creator_id
    creator_username := profileData.getD "Vous"
    likes := row.likes
    views := row.views
    comments := row.comments
    isLiked := false
    created_at := row.created_at
    channel_id := row.channel_id
    thumbnail_url := row.thumbnail_url
    post_link := row.post_link
    is_public := row.is_public }

/-- `createDebriefing` (useDebriefings.tsx, lines 129-227).  `channelId`
is the hook's channel; `nowV`/`nowT` model the two `Date.now()` calls
used in the storage paths.  Unauthenticated viewers and non-public
creates without a valid channel short-circuit with an error toast and
no store call; any upload or insert error is caught, toasts an error and
returns `false`; on success the new item is prepended and `true`
returned. -/
def createDebriefing (channelId : Option String) (user : Option String) (env : Env)
    (nowV nowT : Nat) (dd : DebriefingInput) (l : List Debriefing) : MutationOutcome :=
  match user with
  | none => ⟨l, false, false, true, false⟩
  | some uid =>
    let isPublicBrief := dd.isPublic.getD false
    if ¬isPublicBrief ∧ (channelId = none ∨ channelId = some "general") then
      ⟨l, false, false, true, false⟩
    else
      let vPath := dd.video.map (fun name => uid ++ "/" ++ toString nowV ++ "-" ++ name)
      let tPath := dd.thumbnail.map
        (fun name => uid ++ "/" ++ toString nowT ++ "-thumbnail-" ++ name)
      match uploadMedia env vPath with
      | .error _ => ⟨l, false, true, true, false⟩
      | .ok videoUrl =>
        match uploadMedia env tPath with
        | .error _ => ⟨l, false, true, true, false⟩
        | .ok thumbnailUrl =>
          match env.insertRow (buildInsertPayload uid channelId isPublicBrief dd videoUrl thumbnailUrl) with
          | .error _ => ⟨l, false, true, true, false⟩
          | .ok row => ⟨mkNewDebriefing env uid row :: l, true, true, false, true⟩

/-- `createPublicBrief` (useDebriefings.tsx, lines 229-231): create with
`isPublic` forced to `true`. -/
def createPublicBrief (channelId : Option String) (user : Option String) (env : Env)
    (nowV nowT : Nat) (dd : DebriefingInput) (l : List Debriefing) : MutationOutcome :=
  createDebriefing channelId user env nowV nowT { dd with isPublic := some true } l

/-- The per-element update inside `setDebriefings(prev => prev.map(...))`
of `likeDebriefing` (lines 265-274): flip `isLiked` and adjust `likes`
when the id matches. -/
def toggleOne (debriefingId : String) (d : Debriefing) : Debriefing :=
  if d.id == debriefingId then
    { d with isLiked := !d.isLiked, likes := if d.isLiked then d.likes - 1 else d.likes + 1 }
  else d

/-- The local state update of `likeDebriefing` (lines 265-274). -/
def toggleLocal (debriefingId : String) (l : List Debriefing) : List Debriefing :=
  l.map (toggleOne debriefingId)

/-- `likeDebriefing` (useDebriefings.tsx, lines 233-282).  Requires an
authenticated viewer (error toast otherwise); silently returns `false`
when the id is not in the in-memory list; otherwise deletes or inserts
the like row according to the item's current `isLiked`, and on store
success applies the local toggle and returns `true`. -/
def likeDebriefing (user : Option String) (env : Env) (debriefingId : String)
    (l : List Debriefing) : MutationOutcome :=
  match user with
  | none => ⟨l, false, false, true, false⟩
  | some uid =>
    match l.find? (fun d => d.id == debriefingId) with
    | none => ⟨l, false, false, false, false⟩
    | some d =>
      if d.isLiked then
        match env.deleteLike debriefingId uid with
        | .error _ => ⟨l, false, true, true, false⟩
        | .ok _ => ⟨toggleLocal debriefingId l, true, true, false, false⟩
      else
        match env.insertLike debriefingId uid with
        | .error _ => ⟨l, false, true, true, false⟩
        | .ok _ => ⟨toggleLocal debriefingId l, true, true, false, false⟩

/-- `deleteDebriefing` (useDebriefings.tsx, lines 284-309).  Requires an
authenticated viewer; issues the ownership-filtered delete; when the call
resolves without error (which includes the zero-rows-matched case) the
item is filtered out of the local list, a success toast shown and `true`
returned. -/
def deleteDebriefing (user : Option String) (env : Env) (debriefingId : String)
    (l : List Debriefing) : MutationOutcome :=
  match user with
  | none => ⟨l, false, false, true, false⟩
  | some uid =>
    match env.deleteRows debriefingId uid with
    | .error _ => ⟨l, false, true, true, false⟩
    | .ok _ => ⟨l.filter (fun d => d.id != debriefingId), true, true, false, true⟩

/-- `totalComments` (DebriefingCommentsSheet.tsx, lines 73-75):
`comments.reduce((total, comment) => total + 1 + (comment.replies?.length || 0), 0)`. -/
def totalComments (comments : List Comment) : Nat :=
  comments.foldl (fun total comment => total + 1 + ((comment.replies.map List.length).getD 0)) 0

/-- Outcome of a comment-repository mutation: the top-level comment list
after the call, the returned boolean, and whether any store request was
issued. -/
structure CommentOutcome where
  comments : List Comment
  result : Bool
  storeCalled : Bool
deriving DecidableEq

/-- Modelled from the spec: the CommentRepository hook
(`useDebriefingComments`, not under src/) operation `add(body, parentId?)`
"requires authenticated viewer and non-empty body; inserts a Comment row
with the given parent (null for top-level); on success, places the new
comment into the correct position (top-level list or nested under its
parent)"; for all unauthenticated viewers it returns failure and performs
no store mutation. -/
def addComment (user : Option String) (env : Env) (body : String) (parentId : Option String)
    (cs : List Comment) : CommentOutcome :=
  match user with
  | none => ⟨cs, false, false⟩
  | some uid =>
    if body = "" then ⟨cs, false, false⟩
    else
      match env.insertComment uid body parentId with
      | .error _ => ⟨cs, false, true⟩
      | .ok c =>
        match parentId with
        | none => ⟨cs ++ [c], true, true⟩
        | some pid =>
          let reply : Reply :=
            ⟨c.id, c.debriefing_id, c.user_id, c.username, c.content, some pid,
             c.likes, c.isLiked, c.created_at⟩
          ⟨cs.map (fun p =>
            if p.id == pid then { p with replies := some ((p.replies.getD []) ++ [reply]) }
            else p), true, true⟩

/-- Modelled from the spec: the per-reply part of the comment-like local
toggle — flip `isLiked` and adjust the count when the id matches. -/
def toggleReply (commentId : String) (r : Reply) : Reply :=
  if r.id == commentId then
    { r with isLiked := !r.isLiked, likes := if r.isLiked then r.likes - 1 else r.likes + 1 }
  else r

/-- Modelled from the spec: the per-comment part of the comment-like
local toggle, applied "to whichever list (top-level or nested replies)
currently contains the target identifier". -/
def toggleComment (commentId : String) (c : Comment) : Comment :=
  let c' := if c.id == commentId then
      { c with isLiked := !c.isLiked,
               likes := if c.isLiked then c.likes - 1 else c.likes + 1 }
    else c
  { c' with replies := c'.replies.map (List.map (toggleReply commentId)) }

/-- Modelled from the spec: the comment-like local state update. -/
def toggleCommentsLocal (commentId : String) (cs : List Comment) : List Comment :=
  cs.map (toggleComment commentId)

/-- Modelled from the spec: the CommentRepository hook's
`like(commentId)` — "same toggle/ownership semantics as
ContentRepository's equivalents, applied to whichever list (top-level or
nested replies) currently contains the target identifier"; for all
unauthenticated viewers it returns failure and performs no store
mutation. -/
def likeComment (user : Option String) (env : Env) (commentId : String)
    (cs : List Comment) : CommentOutcome :=
  match user with
  | none => ⟨cs, false, false⟩
  | some uid =>
    let liked := cs.any fun c =>
      (c.id == commentId && c.isLiked)
        || (c.replies.getD []).any (fun r => r.id == commentId && r.isLiked)
    match (if liked then env.deleteCommentLike commentId uid
           else env.insertCommentLike commentId uid) with
    | .error _ => ⟨cs, false, true⟩
    | .ok _ => ⟨toggleCommentsLocal commentId cs, true, true⟩

/-- Modelled from the spec: the CommentRepository hook's
`delete(commentId)` — ownership enforced at the store level, the comment
removed from whichever list contains it on success; for all
unauthenticated viewers it returns failure and performs no store
mutation. -/
def deleteComment (user : Option String) (env : Env) (commentId : String)
    (cs : List Comment) : CommentOutcome :=
  match user with
  | none => ⟨cs, false, false⟩
  | some uid =>
    match env.deleteCommentRows commentId uid with
    | .error _ => ⟨cs, false, true⟩
    | .ok _ =>
      ⟨(cs.filter (fun c => c.id != commentId)).map (fun c =>
        { c with replies := c.replies.map (List.filter fun r => r.id != commentId) }),
       true, true⟩

/-! Concrete store oracles and rows, used to instantiate the theorems
below at explicit inputs. -/

/-- A store oracle whose calls all resolve: queries return no rows,
lookups find no row, and the insert echoes the payload into the created
row (the store contract: "row insert returning the created row"). -/
def sampleEnv : Env where
  queryChannel := fun _ => .ok []
  queryPublic := .ok []
  profileUsername := fun _ => .ok none
  likeRow := fun _ _ => .ok none
  uploadFile := fun _ => .ok ()
  publicUrl := fun p => p
  insertRow := fun p =>
    .ok ⟨"new-id", p.title, p.description, p.video_url, p.creator_id, p.likes, p.views, 0,
         "2026-01-02", p.channel_id, p.thumbnail_url, p.post_link, p.is_public⟩
  insertLike := fun _ _ => .ok ()
  deleteLike := fun _ _ => .ok ()
  deleteRows := fun _ _ => .ok ()
  insertComment := fun uid body _ => .ok ⟨"c-id", "d1", uid, "u", body, 0, false, "2026", none⟩
  insertCommentLike := fun _ _ => .ok ()
  deleteCommentLike := fun _ _ => .ok ()
  deleteCommentRows := fun _ _ => .ok ()

/-- A concrete enriched item in the in-memory list, created by "alice". -/
def aliceItem : Debriefing where
  id := "d1"
  title := "t"
  description := ""
  video_url := none
  creator_id := "alice"
  creator_username := "alice"
  likes := 3
  views := 0
  comments := 0
  isLiked := false
  created_at := "2026-01-01"
  channel_id := some "c1"
  thumbnail_url := none
  post_link := none
  is_public := false

/-- A concrete reply to comment "c1", already liked by the viewer. -/
def sampleReply : Reply where
  id := "r1"
  debriefing_id := "d1"
  user_id := "alice"
  username := "alice"
  content := "re"
  parent_comment_id := some "c1"
  likes := 1
  isLiked := true
  created_at := "2026-01-01"

/-- A concrete top-level comment carrying one reply. -/
def sampleComment : Comment where
  id := "c1"
  debriefing_id := "d1"
  user_id := "alice"
  username := "alice"
  content := "hi"
  likes := 2
  isLiked := false
  created_at := "2026-01-01"
  replies := some [sampleReply]

/-- A concrete raw store row. -/
def sampleRow : DebriefingRow where
  id := "d1"
  title := "t"
  description := ""
  video_url := none
  creator_id := "alice"
  likes := 3
  views := 0
  comments := 0
  created_at := "2026-01-01"
  channel_id := some "c1"
  thumbnail_url := none
  post_link := none
  is_public := false

/-! Theorems -/

/-- C6: for every call of `loadForChannel` whose channelId argument is
absent (null) or equals the sentinel "no channel selected" value
("general"), the in-memory list becomes empty and the loading flag
becomes false, and no backing-store request is issued. -/
theorem fetch_noChannel_resets (channelId : Option String) (user : Option String)
    (env : Env) (s : HookState)
    (h : channelId = none ∨ channelId = some "general") :
    fetchDebriefings channelId user env s = ⟨⟨[], false⟩, false, false⟩ := by
  rcases h with h | h <;> subst h <;> simp [fetchDebriefings]

theorem fetch_noChannel_resets_witness :
    ((some "general" : Option String) = none ∨ (some "general" : Option String) = some "general") ∧
    fetchDebriefings (some "general") none sampleEnv ⟨[aliceItem], true⟩ = ⟨⟨[], false⟩, false, false⟩ :=
  ⟨Or.inr rfl, fetch_noChannel_resets (some "general") none sampleEnv ⟨[aliceItem], true⟩ (Or.inr rfl)⟩

/-- C8: for every list of top-level comments each carrying a replies
list, the total comment count exposed to the UI equals the number of
top-level comments plus the sum of the lengths of each top-level
comment's replies list. -/
theorem totalComments_eq (cs : List Comment) :
    totalComments cs = cs.length + (cs.map fun c => (c.replies.getD []).length).sum := by
  suffices h : ∀ n : Nat, cs.foldl
      (fun total comment => total + 1 + ((comment.replies.map List.length).getD 0)) n
      = n + cs.length + (cs.map fun c => (c.replies.getD []).length).sum by
    simpa [totalComments] using h 0
  induction cs with
  | nil => intro n; simp
  | cons c cs ih =>
    intro n
    have hr : ((c.replies.map List.length).getD 0) = (c.replies.getD []).length := by
      cases c.replies <;> rfl
    rw [List.foldl_cons, ih, hr]
    simp only [List.length_cons, List.map_cons, List.sum_cons]
    omega

/-- C3: for every unauthenticated viewer, each of create, like and
delete on content items, and add/like/delete on comments, returns
failure, issues no store call, and leaves the in-memory list unchanged. -/
theorem unauthenticated_all_noop (channelId : Option String) (env : Env)
    (nowV nowT : Nat) (dd : DebriefingInput) (l : List Debriefing)
    (body : String) (parentId : Option String) (commentId debriefingId : String)
    (cs : List Comment) :
    createDebriefing channelId none env nowV nowT dd l = ⟨l, false, false, true, false⟩ ∧
    likeDebriefing none env debriefingId l = ⟨l, false, false, true, false⟩ ∧
    deleteDebriefing none env debriefingId l = ⟨l, false, false, true, false⟩ ∧
    addComment none env body parentId cs = ⟨cs, false, false⟩ ∧
    likeComment none env commentId cs = ⟨cs, false, false⟩ ∧
    deleteComment none env commentId cs = ⟨cs, false, false⟩ :=
  ⟨rfl, rfl, rfl, rfl, rfl, rfl⟩

/-- C10: for every authenticated viewer, calling like with an id not
present in the in-memory list returns false without issuing any store
call, without modifying the list, and without showing any toast. -/
theorem like_missing_id_silent (uid : String) (env : Env) (debriefingId : String)
    (l : List Debriefing)
    (h : l.find? (fun d => d.id == debriefingId) = none) :
    likeDebriefing (some uid) env debriefingId l = ⟨l, false, false, false, false⟩ := by
  simp only [likeDebriefing, h]

theorem like_missing_id_silent_witness :
    ([aliceItem].find? (fun d => d.id == "other") = none) ∧
    likeDebriefing (some "bob") sampleEnv "other" [aliceItem] = ⟨[aliceItem], false, false, false, false⟩ :=
  ⟨by decide, like_missing_id_silent "bob" sampleEnv "other" [aliceItem] (by decide)⟩

/-- C1 (code behavior at the failing input): viewer "bob", who is not
the creator of item "d1" (created by "alice"), calls delete("d1"); the
ownership-filtered store delete matches zero rows and resolves without
error, yet the code removes the item from the in-memory list, shows a
success toast, and returns true — contradicting the documented behavior
(list unchanged, failure reported). -/
theorem delete_nonOwner_removes_locally :
    (deleteDebriefing (some "bob") sampleEnv "d1" [aliceItem]).result = true ∧
    (deleteDebriefing (some "bob") sampleEnv "d1" [aliceItem]).debriefings = [] ∧
    (deleteDebriefing (some "bob") sampleEnv "d1" [aliceItem]).toastSuccess = true ∧
    "bob" ≠ aliceItem.creator_id := by
  refine ⟨rfl, by decide, rfl, by decide⟩

/-- The toggle preserves the item's id. -/
theorem toggleOne_id (i : String) (d : Debriefing) : (toggleOne i d).id = d.id := by
  unfold toggleOne; split <;> rfl

/-- Applying the local toggle twice to one element restores it. -/
theorem toggleOne_toggleOne (i : String) (d : Debriefing) :
    toggleOne i (toggleOne i d) = d := by
  obtain ⟨id, title, desc, vu, cid, cu, likes, views, cm, isLiked, ca, ch, tu, pl, ip⟩ := d
  by_cases h : (id == i) = true
  · cases isLiked <;> simp [toggleOne, h]
  · simp [toggleOne, h]

/-- Applying the local toggle twice to the list restores it. -/
theorem toggleLocal_toggleLocal (i : String) (l : List Debriefing) :
    toggleLocal i (toggleLocal i l) = l := by
  induction l with
  | nil => rfl
  | cons d l ih =>
    simp only [toggleLocal, List.map_cons] at ih ⊢
    rw [toggleOne_toggleOne]
    exact congrArg _ ih

/-- `find?` by id commutes with the local toggle. -/
theorem find?_toggleLocal (i : String) (l : List Debriefing) :
    (toggleLocal i l).find? (fun d => d.id == i)
      = (l.find? (fun d => d.id == i)).map (toggleOne i) := by
  induction l with
  | nil => rfl
  | cons d l ih =>
    simp only [toggleLocal, List.map_cons] at ih ⊢
    by_cases h : (d.id == i) = true
    · have h2 : ((toggleOne i d).id == i) = true := by rw [toggleOne_id]; exact h
      simp [h, h2]
    · have h2 : ¬((toggleOne i d).id == i) = true := by rw [toggleOne_id]; exact h
      simp [h, h2, ih]

/-- Applying the reply toggle twice restores the reply. -/
theorem toggleReply_toggleReply (i : String) (r : Reply) :
    toggleReply i (toggleReply i r) = r := by
  obtain ⟨id, did, uid, un, ct, pc, likes, isLiked, ca⟩ := r
  by_cases h : (id == i) = true
  · cases isLiked <;> simp [toggleReply, h]
  · simp [toggleReply, h]

/-- The reply toggle composed with itself is the identity. -/
theorem toggleReply_comp (i : String) : toggleReply i ∘ toggleReply i = id := by
  funext r; exact toggleReply_toggleReply i r

/-- Applying the comment toggle twice restores the comment (its own
state and its replies). -/
theorem toggleComment_toggleComment (i : String) (c : Comment) :
    toggleComment i (toggleComment i c) = c := by
  obtain ⟨id, did, uid, un, ct, likes, isLiked, ca, replies⟩ := c
  by_cases h : (id == i) = true
  · cases isLiked <;> simp [toggleComment, h, toggleReply_comp]
  · simp [toggleComment, h, toggleReply_comp]

/-- Applying the comment-like local toggle twice restores the list. -/
theorem toggleCommentsLocal_toggleCommentsLocal (i : String) (cs : List Comment) :
    toggleCommentsLocal i (toggleCommentsLocal i cs) = cs := by
  induction cs with
  | nil => rfl
  | cons c cs ih =>
    simp only [toggleCommentsLocal, List.map_cons] at ih ⊢
    rw [toggleComment_toggleComment]
    exact congrArg _ ih

/-- Whichever branch the comment-like toggle takes, a store oracle whose
insert and delete both resolve answers `.ok ()`. -/
theorem commentLikeCall_ok (env : Env) (commentId uid : String) (b : Bool)
    (hins : env.insertCommentLike commentId uid = .ok ())
    (hdel : env.deleteCommentLike commentId uid = .ok ()) :
    (if b then env.deleteCommentLike commentId uid
     else env.insertCommentLike commentId uid) = .ok () := by
  cases b <;> simp [hins, hdel]

/-- C2: for every item or comment x in the current in-memory list and
every authenticated viewer, calling like(x) twice in succession, with
both backing-store calls succeeding, returns both times true and returns
the list — in particular x's `isLiked` state and like count, for content
items as well as for comments (top-level and replies) — to its original
value. -/
theorem like_twice_restores (uid : String) (env : Env) (debriefingId commentId : String)
    (l : List Debriefing) (cs : List Comment)
    (hmem : ∃ x ∈ l, x.id = debriefingId)
    (hins : env.insertLike debriefingId uid = .ok ())
    (hdel : env.deleteLike debriefingId uid = .ok ())
    (hinsC : env.insertCommentLike commentId uid = .ok ())
    (hdelC : env.deleteCommentLike commentId uid = .ok ()) :
    ((likeDebriefing (some uid) env debriefingId l).result = true ∧
     (likeDebriefing (some uid) env debriefingId
       (likeDebriefing (some uid) env debriefingId l).debriefings).result = true ∧
     (likeDebriefing (some uid) env debriefingId
       (likeDebriefing (some uid) env debriefingId l).debriefings).debriefings = l) ∧
    ((likeComment (some uid) env commentId cs).result = true ∧
     (likeComment (some uid) env commentId
       (likeComment (some uid) env commentId cs).comments).result = true ∧
     (likeComment (some uid) env commentId
       (likeComment (some uid) env commentId cs).comments).comments = cs) := by
  have hcomment : ∀ cs' : List Comment, likeComment (some uid) env commentId cs'
      = ⟨toggleCommentsLocal commentId cs', true, true⟩ := by
    intro cs'
    simp only [likeComment, commentLikeCall_ok env commentId uid _ hinsC hdelC]
  have hc1 := hcomment cs
  have hc2 := hcomment (toggleCommentsLocal commentId cs)
  refine ⟨?_, ?_⟩
  swap
  · refine ⟨by rw [hc1], ?_, ?_⟩
    · rw [hc1]
      show (likeComment (some uid) env commentId (toggleCommentsLocal commentId cs)).result = true
      rw [hc2]
    · rw [hc1]
      show (likeComment (some uid) env commentId
        (toggleCommentsLocal commentId cs)).comments = cs
      rw [hc2]
      exact toggleCommentsLocal_toggleCommentsLocal commentId cs
  obtain ⟨x, hx, hxid⟩ := hmem
  have hfind : (l.find? (fun d => d.id == debriefingId)).isSome := by
    rw [List.find?_isSome]
    exact ⟨x, hx, by simp [hxid]⟩
  obtain ⟨y, hy⟩ := Option.isSome_iff_exists.mp hfind
  have h1 : likeDebriefing (some uid) env debriefingId l
      = ⟨toggleLocal debriefingId l, true, true, false, false⟩ := by
    by_cases hyl : y.isLiked = true <;>
      simp only [likeDebriefing, hy, hyl, if_true, if_false, Bool.false_eq_true, hins, hdel]
  have hy2 : (toggleLocal debriefingId l).find? (fun d => d.id == debriefingId)
      = some (toggleOne debriefingId y) := by
    rw [find?_toggleLocal, hy]; rfl
  have h2 : likeDebriefing (some uid) env debriefingId (toggleLocal debriefingId l)
      = ⟨toggleLocal debriefingId (toggleLocal debriefingId l), true, true, false, false⟩ := by
    by_cases hyl : (toggleOne debriefingId y).isLiked = true <;>
      simp only [likeDebriefing, hy2, hyl, if_true, if_false, Bool.false_eq_true, hins, hdel]
  refine ⟨by rw [h1], ?_, ?_⟩
  · rw [h1]
    show (likeDebriefing (some uid) env debriefingId (toggleLocal debriefingId l)).result = true
    rw [h2]
  · rw [h1]
    show (likeDebriefing (some uid) env debriefingId
      (toggleLocal debriefingId l)).debriefings = l
    rw [h2]
    exact toggleLocal_toggleLocal debriefingId l

theorem like_twice_restores_witness :
    (∃ x ∈ [aliceItem], x.id = "d1") ∧
    sampleEnv.insertLike "d1" "bob" = .ok () ∧
    sampleEnv.deleteLike "d1" "bob" = .ok () ∧
    (likeDebriefing (some "bob") sampleEnv "d1"
      (likeDebriefing (some "bob") sampleEnv "d1" [aliceItem]).debriefings).debriefings
      = [aliceItem] ∧
    (likeComment (some "bob") sampleEnv "r1"
      (likeComment (some "bob") sampleEnv "r1" [sampleComment]).comments).comments
      = [sampleComment] :=
  ⟨⟨aliceItem, by decide, by decide⟩, rfl, rfl,
    (like_twice_restores "bob" sampleEnv "d1" "r1" [aliceItem] [sampleComment]
      ⟨aliceItem, by decide, by decide⟩ rfl rfl rfl rfl).1.2.2,
    (like_twice_restores "bob" sampleEnv "d1" "r1" [aliceItem] [sampleComment]
      ⟨aliceItem, by decide, by decide⟩ rfl rfl rfl rfl).2.2.2⟩

/-- A concrete input with a public brief titled "T" and no media payloads. -/
def sampleInput : DebriefingInput where
  title := "T"
  description := ""
  video := none
  thumbnail := none
  postLink := none
  isPublic := some true

/-- Rows with strictly descending creation timestamps. -/
def rowA : DebriefingRow := { sampleRow with id := "a", created_at := "2026-01-03" }

def rowB : DebriefingRow := { sampleRow with id := "b", created_at := "2026-01-02" }

/-- An oracle whose queries return two rows in descending-timestamp order. -/
def orderEnv : Env := { sampleEnv with
  queryChannel := fun _ => .ok [rowA, rowB]
  queryPublic := .ok [rowA, rowB] }

/-- An oracle whose item query succeeds but whose creator-profile
enrichment lookup fails. -/
def enrichFailEnv : Env := { sampleEnv with
  queryChannel := fun _ => .ok [sampleRow]
  profileUsername := fun _ => .error () }

/-- An oracle whose item query fails. -/
def queryFailEnv : Env := { sampleEnv with queryChannel := fun _ => .error () }

/-- Characterization of the success path of `createDebriefing`: valid
scope, both upload blocks resolving, and the insert returning a row. -/
theorem createDebriefing_ok_eq (channelId : Option String) (uid : String) (env : Env)
    (nowV nowT : Nat) (dd : DebriefingInput) (l : List Debriefing)
    (vUrl tUrl : String) (row : DebriefingRow)
    (hscope : ¬(¬(dd.isPublic.getD false = true) ∧
      (channelId = none ∨ channelId = some "general")))
    (hv : uploadMedia env (dd.video.map fun name =>
      uid ++ "/" ++ toString nowV ++ "-" ++ name) = .ok vUrl)
    (ht : uploadMedia env (dd.thumbnail.map fun name =>
      uid ++ "/" ++ toString nowT ++ "-thumbnail-" ++ name) = .ok tUrl)
    (hrow : env.insertRow (buildInsertPayload uid channelId
      (dd.isPublic.getD false) dd vUrl tUrl) = .ok row) :
    createDebriefing channelId (some uid) env nowV nowT dd l
      = ⟨mkNewDebriefing env uid row :: l, true, true, false, true⟩ := by
  simp only [createDebriefing, if_neg hscope, hv, ht, hrow]

/-- C4: for every authenticated viewer, calling create with isPublic
true and no channel scope, when all backing-store calls succeed (the
insert returning the created row), returns true and the list's first
element has the given title, owning channel null, public flag true, like
count 0 and viewer-like state false. -/
theorem create_public_success (uid : String) (env : Env) (nowV nowT : Nat)
    (dd : DebriefingInput) (l : List Debriefing)
    (hpub : dd.isPublic = some true)
    (hupl : ∀ p, env.uploadFile p = .ok ())
    (hins : ∀ payload, ∃ row, env.insertRow payload = .ok row ∧
      row.title = payload.title ∧ row.channel_id = payload.channel_id ∧
      row.is_public = payload.is_public ∧ row.likes = payload.likes) :
    (createDebriefing none (some uid) env nowV nowT dd l).result = true ∧
    ∃ d, (createDebriefing none (some uid) env nowV nowT dd l).debriefings.head? = some d ∧
      d.title = dd.title ∧ d.channel_id = none ∧ d.is_public = true ∧
      d.likes = 0 ∧ d.isLiked = false := by
  have hpb : dd.isPublic.getD false = true := by rw [hpub]; rfl
  have hscope : ¬(¬(dd.isPublic.getD false = true) ∧
      ((none : Option String) = none ∨ (none : Option String) = some "general")) := by
    simp [hpb]
  have hv : ∃ u, uploadMedia env (dd.video.map fun name =>
      uid ++ "/" ++ toString nowV ++ "-" ++ name) = .ok u := by
    cases dd.video <;> simp [uploadMedia, hupl]
  obtain ⟨vUrl, hv⟩ := hv
  have ht : ∃ u, uploadMedia env (dd.thumbnail.map fun name =>
      uid ++ "/" ++ toString nowT ++ "-thumbnail-" ++ name) = .ok u := by
    cases dd.thumbnail <;> simp [uploadMedia, hupl]
  obtain ⟨tUrl, ht⟩ := ht
  obtain ⟨row, hrow, hT, hC, hP, hL⟩ :=
    hins (buildInsertPayload uid none (dd.isPublic.getD false) dd vUrl tUrl)
  rw [createDebriefing_ok_eq none uid env nowV nowT dd l vUrl tUrl row hscope hv ht hrow]
  refine ⟨rfl, mkNewDebriefing env uid row, rfl, ?_, ?_, ?_, ?_, rfl⟩
  · show row.title = dd.title
    rw [hT]; rfl
  · show row.channel_id = none
    rw [hC]; simp [buildInsertPayload, hpb]
  · show row.is_public = true
    rw [hP]; simp [buildInsertPayload, hpb]
  · show row.likes = 0
    rw [hL]; rfl

theorem create_public_success_witness :
    (createDebriefing none (some "v") sampleEnv 0 0 sampleInput []).result = true ∧
    ∃ d, (createDebriefing none (some "v") sampleEnv 0 0 sampleInput []).debriefings.head?
        = some d ∧
      d.title = "T" ∧ d.channel_id = none ∧ d.is_public = true ∧
      d.likes = 0 ∧ d.isLiked = false :=
  create_public_success "v" sampleEnv 0 0 sampleInput [] rfl (fun _ => rfl)
    (fun payload =>
      ⟨⟨"new-id", payload.title, payload.description, payload.video_url, payload.creator_id,
        payload.likes, payload.views, 0, "2026-01-02", payload.channel_id,
        payload.thumbnail_url, payload.post_link, payload.is_public⟩,
       rfl, rfl, rfl, rfl, rfl⟩)

/-- C7: after every successful loadForChannel or loadPublicFeed, the
list is sorted strictly by creation timestamp descending (given the
store honors the requested ordering, i.e. returns the rows in that
order); after every successful create the newly created item is at
index 0 of the list, the rest unchanged. -/
theorem ordering_invariants (user : Option String) (env : Env) (s : HookState) :
    (∀ cid rows, cid ≠ "general" → env.queryChannel cid = .ok rows →
      rows.Pairwise (fun a b => b.created_at < a.created_at) →
      (fetchDebriefings (some cid) user env s).state.debriefings.Pairwise
        (fun a b => b.created_at < a.created_at)) ∧
    (∀ rows, env.queryPublic = .ok rows →
      rows.Pairwise (fun a b => b.created_at < a.created_at) →
      (fetchPublicDebriefings user env s).state.debriefings.Pairwise
        (fun a b => b.created_at < a.created_at)) ∧
    (∀ channelId uid nowV nowT dd l,
      (createDebriefing channelId (some uid) env nowV nowT dd l).result = true →
      ∃ row, (createDebriefing channelId (some uid) env nowV nowT dd l).debriefings
        = mkNewDebriefing env uid row :: l) := by
  refine ⟨?_, ?_, ?_⟩
  · intro cid rows hcid hq hsorted
    simp only [fetchDebriefings, if_neg hcid, hq]
    rw [List.pairwise_map]
    exact hsorted
  · intro rows hq hsorted
    simp only [fetchPublicDebriefings, hq]
    rw [List.pairwise_map]
    exact hsorted
  · intro channelId uid nowV nowT dd l hres
    by_cases hscope : dd.isPublic.getD false = false ∧
        (channelId = none ∨ channelId = some "general")
    · simp [createDebriefing, hscope] at hres
    · cases hv : uploadMedia env (dd.video.map fun name =>
          uid ++ "/" ++ toString nowV ++ "-" ++ name) with
      | error e => simp [createDebriefing, hscope, hv] at hres
      | ok vUrl =>
        cases ht : uploadMedia env (dd.thumbnail.map fun name =>
            uid ++ "/" ++ toString nowT ++ "-thumbnail-" ++ name) with
        | error e => simp [createDebriefing, hscope, hv, ht] at hres
        | ok tUrl =>
          cases hrow : env.insertRow (buildInsertPayload uid channelId
              (dd.isPublic.getD false) dd vUrl tUrl) with
          | error e => simp [createDebriefing, hscope, hv, ht, hrow] at hres
          | ok row =>
            exact ⟨row, by simp [createDebriefing, hscope, hv, ht, hrow]⟩

theorem ordering_invariants_witness :
    (fetchDebriefings (some "c1") none orderEnv ⟨[], true⟩).state.debriefings.Pairwise
      (fun a b => b.created_at < a.created_at) ∧
    (fetchPublicDebriefings none orderEnv ⟨[], true⟩).state.debriefings.Pairwise
      (fun a b => b.created_at < a.created_at) ∧
    ∃ row, (createDebriefing none (some "v") orderEnv 0 0 sampleInput []).debriefings
      = [mkNewDebriefing orderEnv "v" row] :=
  ⟨(ordering_invariants none orderEnv ⟨[], true⟩).1 "c1" [rowA, rowB]
      (by decide) rfl (by
        simp only [List.pairwise_cons, List.mem_singleton, List.not_mem_nil,
          List.Pairwise.nil, and_true, forall_eq, IsEmpty.forall_iff, implies_true]
        rw [String.lt_iff_toList_lt]; decide),
   (ordering_invariants none orderEnv ⟨[], true⟩).2.1 [rowA, rowB] rfl (by
        simp only [List.pairwise_cons, List.mem_singleton, List.not_mem_nil,
          List.Pairwise.nil, and_true, forall_eq, IsEmpty.forall_iff, implies_true]
        rw [String.lt_iff_toList_lt]; decide),
   (ordering_invariants none orderEnv ⟨[], true⟩).2.2 none "v" 0 0 sampleInput [] rfl⟩

/-- C9: a missing creator-profile row resolves the display name to
"Utilisateur" during load and "Vous" during create, a missing like row
resolves the viewer-like state to false, and no such miss is surfaced as
an error (a successful item query never reports a failure, whatever the
enrichment lookups return). -/
theorem lookup_miss_fallbacks (env : Env) (user : Option String)
    (row r : DebriefingRow) (uid : String)
    (hprofile : env.profileUsername row.creator_id = .ok none)
    (hlike : env.likeRow row.id user = .ok none)
    (hself : env.profileUsername uid = .ok none) :
    (enrichRow user env row).creator_username = "Utilisateur" ∧
    (enrichRow user env row).isLiked = false ∧
    (mkNewDebriefing env uid r).creator_username = "Vous" ∧
    (∀ cid rows s, cid ≠ "general" → env.queryChannel cid = .ok rows →
      (fetchDebriefings (some cid) user env s).toastError = false) := by
  refine ⟨?_, ?_, ?_, ?_⟩
  · simp [enrichRow, dataOf, hprofile]
  · simp [enrichRow, dataOf, hlike]
  · simp [mkNewDebriefing, dataOf, hself]
  · intro cid rows s hcid hq
    simp [fetchDebriefings, hcid, hq]

theorem lookup_miss_fallbacks_witness :
    sampleEnv.profileUsername sampleRow.creator_id = .ok none ∧
    (enrichRow (some "bob") sampleEnv sampleRow).creator_username = "Utilisateur" ∧
    (enrichRow (some "bob") sampleEnv sampleRow).isLiked = false ∧
    (mkNewDebriefing sampleEnv "bob" sampleRow).creator_username = "Vous" :=
  ⟨rfl,
   (lookup_miss_fallbacks sampleEnv (some "bob") sampleRow sampleRow "bob" rfl rfl rfl).1,
   (lookup_miss_fallbacks sampleEnv (some "bob") sampleRow sampleRow "bob" rfl rfl rfl).2.1,
   (lookup_miss_fallbacks sampleEnv (some "bob") sampleRow sampleRow "bob" rfl rfl rfl).2.2.1⟩

/-- C5 counterexample: the item query succeeds but the per-item
creator-profile enrichment lookup returns an error; the load still sets
the in-memory list (the enrichment code drops the error channel and
falls back), and no user-facing failure is reported — contradicting the
claim that an error in any per-item enrichment lookup leaves the list
unchanged and reports a failure. -/
theorem fetch_enrichError_still_sets_list :
    enrichFailEnv.profileUsername sampleRow.creator_id = .error () ∧
    (fetchDebriefings (some "c1") (some "bob") enrichFailEnv ⟨[], true⟩).state.debriefings ≠ [] ∧
    (fetchDebriefings (some "c1") (some "bob") enrichFailEnv ⟨[], true⟩).toastError = false :=
  ⟨rfl, by decide, rfl⟩

/-- C5 (amended): if the item query of loadForChannel returns an error,
the operation leaves the in-memory list unchanged, reports a user-facing
failure, and clears the loading flag to false. -/
theorem fetch_queryError_unchanged (cid : String) (user : Option String) (env : Env)
    (s : HookState) (hcid : cid ≠ "general") (herr : env.queryChannel cid = .error ()) :
    fetchDebriefings (some cid) user env s = ⟨⟨s.debriefings, false⟩, true, true⟩ := by
  simp [fetchDebriefings, hcid, herr]

theorem fetch_queryError_unchanged_witness :
    ("c1" ≠ "general") ∧
    fetchDebriefings (some "c1") none queryFailEnv ⟨[aliceItem], true⟩
      = ⟨⟨[aliceItem], false⟩, true, true⟩ :=
  ⟨by decide, fetch_queryError_unchanged "c1" none queryFailEnv ⟨[aliceItem], true⟩ (by decide) rfl⟩

end Debriefings
